import Mathlib

/-! Builtin evaluation core of the YCP interpreter.

Shallow embedding of `src/libycp/src/YCPInterpreter.cc`:

* `YCPInterpreter::evaluateBuiltinBuiltin` (the operator dispatcher), and
* `YCPInterpreter::evaluateBuiltinTerm` (the symbol resolver).

The per-type evaluators, the sort routine, the general evaluator, the value
capabilities `equal` / `compare` and the gperf table are declared `extern` or
live in headers that are not part of the source; they are parameters of the
embedding (`Externals`).  The interpreter object (`this`) is an abstract state
that is threaded through every external call, and every external call is
recorded in a trace so that "calls no evaluator" can be stated.
-/

namespace YCP

/-! ## Data model -/

/-- Opcodes of builtin operators (`builtin_t`).  The twelve opcodes the source
file names are constructors of their own; `YCPB_OTHER n` stands for every
other member of the catalogue. -/
inductive builtin_t where
  | YCPB_EQ
  | YCPB_NEQ
  | YCPB_ST
  | YCPB_GT
  | YCPB_SE
  | YCPB_GE
  | YCPB_FOREACH
  | YCPB_SORT
  | YCPB_NLOCALE
  | YCPB_NOT
  | YCPB_SIZE
  | YCPB_LOOKUP
  | YCPB_OTHER (n : Nat)
  deriving DecidableEq, Repr

/-- Runtime kind tag of a value (`YCPValueType`).  `YT_OTHER n` stands for the
kinds the dispatcher has no case for (symbol, declaration, block, ...). -/
inductive YCPValueType where
  | YT_VOID
  | YT_BOOLEAN
  | YT_INTEGER
  | YT_FLOAT
  | YT_STRING
  | YT_BYTEBLOCK
  | YT_PATH
  | YT_LIST
  | YT_TERM
  | YT_MAP
  | YT_BUILTIN
  | YT_LOCALE
  | YT_ERROR
  | YT_OTHER (n : Nat)
  deriving DecidableEq, Repr

/-- Result of the ordering capability (`YCPOrder`). -/
inductive YCPOrder where
  | YO_LESS
  | YO_EQUAL
  | YO_GREATER
  deriving DecidableEq, Repr

/-- A value representation (`YCPValueRep`): what a non-null handle points to.
A float carries its uninterpreted bit pattern, a byteblock its bytes. -/
inductive YCPValueRep where
  | void
  | boolean (b : Bool)
  | integer (n : Int)
  | float (bits : Nat)
  | string (s : String)
  | byteblock (bytes : List Nat)
  | path (components : List String)
  | list (elems : List YCPValueRep)
  | term (symbol : String) (args : List YCPValueRep)
  | map (entries : List (YCPValueRep × YCPValueRep))
  | builtin (code : builtin_t) (args : List YCPValueRep)
  | locale (singular plural : String) (count : Int)
  | error (msg : String)
  | other (tag : Nat)

/-- A value handle (`YCPValue`): either null or a pointer to a representation. -/
abbrev YCPValue := Option YCPValueRep

/-- An argument list (`YCPList`).  Its elements are already evaluated values,
never null handles. -/
abbrev YCPList := List YCPValueRep

/-- The null handle, `YCPNull()`. -/
def YCPNull : YCPValue := none

/-- Constructor `YCPVoid()`. -/
def YCPVoid : YCPValue := some YCPValueRep.void

/-- Constructor `YCPBoolean(b)`. -/
def YCPBoolean (b : Bool) : YCPValue := some (YCPValueRep.boolean b)

/-- Constructor `YCPInteger(n)`. -/
def YCPInteger (n : Int) : YCPValue := some (YCPValueRep.integer n)

/-- Constructor `YCPLocale(singular, plural, count)`. -/
def YCPLocale (singular plural : String) (count : Int) : YCPValue :=
  some (YCPValueRep.locale singular plural count)

/-- Constructor `YCPError(message)`. -/
def YCPError (msg : String) : YCPValue := some (YCPValueRep.error msg)

/-- Method `valuetype()`: the kind tag of a representation. -/
def YCPValueRep.valuetype : YCPValueRep → YCPValueType
  | .void => .YT_VOID
  | .boolean _ => .YT_BOOLEAN
  | .integer _ => .YT_INTEGER
  | .float _ => .YT_FLOAT
  | .string _ => .YT_STRING
  | .byteblock _ => .YT_BYTEBLOCK
  | .path _ => .YT_PATH
  | .list _ => .YT_LIST
  | .term _ _ => .YT_TERM
  | .map _ => .YT_MAP
  | .builtin _ _ => .YT_BUILTIN
  | .locale _ _ _ => .YT_LOCALE
  | .error _ => .YT_ERROR
  | .other n => .YT_OTHER n

/-- Method `isMap()`. -/
def YCPValueRep.isMap (v : YCPValueRep) : Bool := v.valuetype == .YT_MAP

/-- Method `isList()`. -/
def YCPValueRep.isList (v : YCPValueRep) : Bool := v.valuetype == .YT_LIST

/-- Method `isString()`. -/
def YCPValueRep.isString (v : YCPValueRep) : Bool := v.valuetype == .YT_STRING

/-- Method `isInteger()`. -/
def YCPValueRep.isInteger (v : YCPValueRep) : Bool := v.valuetype == .YT_INTEGER

/-- Method `isError()`. -/
def YCPValueRep.isError (v : YCPValueRep) : Bool := v.valuetype == .YT_ERROR

/-- Ways in which a step of the dispatcher can have no defined result. -/
inductive Fault where
  | outOfRange (n : Nat)
  | badCast
  deriving DecidableEq, Repr

/-- Downcast `asString()`; defined on strings only. -/
def YCPValueRep.asString : YCPValueRep → Except Fault String
  | .string s => .ok s
  | _ => .error .badCast

/-- Downcast `asInteger()`; defined on integers only. -/
def YCPValueRep.asInteger : YCPValueRep → Except Fault Int
  | .integer n => .ok n
  | _ => .error .badCast

/-- Downcast `asBoolean()->value()`; defined on booleans only. -/
def YCPValueRep.asBoolean : YCPValueRep → Except Fault Bool
  | .boolean b => .ok b
  | _ => .error .badCast

/-- Downcast `asByteblock()->size()`; defined on byteblocks only. -/
def YCPValueRep.asByteblockSize : YCPValueRep → Except Fault Int
  | .byteblock bytes => .ok (Int.ofNat bytes.length)
  | _ => .error .badCast

/-- Method `size()` of an argument list. -/
def YCPList.size (args : YCPList) : Nat := args.length

/-- Modelled from the spec: `YCPListRep::value` is not part of the source and
the spec leaves access beyond the end undefined; a position below `size()`
yields the element stored there, any other position is a fault. -/
def YCPList.value (args : YCPList) (n : Nat) : Except Fault YCPValueRep :=
  match args.get? n with
  | some v => .ok v
  | none => .error (.outOfRange n)

/-- A term (`YCPTerm`): a symbol and its unevaluated argument list. -/
structure YCPTerm where
  symbol : String
  args : YCPList

/-! ## External collaborators and observable behaviour -/

/-- One observable interaction of the core with a collaborator. -/
inductive Event where
  | evaluateIntegerOp (code : builtin_t) (args : YCPList)
  | evaluateFloatOp (code : builtin_t) (args : YCPList)
  | evaluateStringOp (code : builtin_t) (args : YCPList)
  | evaluatePathOp (code : builtin_t) (args : YCPList)
  | evaluateListOp (code : builtin_t) (args : YCPList)
  | evaluateMapOp (code : builtin_t) (args : YCPList)
  | evaluateTermOp (code : builtin_t) (args : YCPList)
  | evaluateBuiltinOp (code : builtin_t) (args : YCPList)
  | evaluateSort (args : YCPList)
  | handler (name : String) (args : YCPList)
  | evaluate (v : YCPValue)
  | y2error (code : builtin_t) (vt : YCPValueType)

/-- An entry of the gperf table (`struct hashentry`): the registered name and
its handler, which receives the interpreter and a raw argument list. -/
structure hashentry (σ : Type) where
  name : String
  evaluate : σ → YCPList → YCPValue × σ

/-- Everything the source file uses but does not define.  `σ` is the state of
the interpreter object that is passed as `this` to every collaborator. -/
structure Externals (σ : Type) where
  equal : YCPValueRep → YCPValueRep → Bool
  compare : YCPValueRep → YCPValueRep → YCPOrder
  evaluateIntegerOp : σ → builtin_t → YCPList → YCPValue × σ
  evaluateFloatOp : σ → builtin_t → YCPList → YCPValue × σ
  evaluateStringOp : σ → builtin_t → YCPList → YCPValue × σ
  evaluatePathOp : σ → builtin_t → YCPList → YCPValue × σ
  evaluateListOp : σ → builtin_t → YCPList → YCPValue × σ
  evaluateMapOp : σ → builtin_t → YCPList → YCPValue × σ
  evaluateTermOp : σ → builtin_t → YCPList → YCPValue × σ
  evaluateBuiltinOp : σ → builtin_t → YCPList → YCPValue × σ
  evaluateSort : σ → YCPList → YCPValue × σ
  evaluate : σ → YCPValue → YCPValue × σ
  in_word_set : String → Nat → Option (hashentry σ)

/-- Outcome of running a member function: the returned handle (or the fault
that prevented a return), the interpreter state afterwards, and the
collaborator interactions in the order they happened. -/
structure Run (σ : Type) where
  ret : Except Fault YCPValue
  state : σ
  trace : List Event

/-- Return `v` without touching any collaborator. -/
def Run.done {σ : Type} (self : σ) (v : YCPValue) : Run σ :=
  { ret := .ok v, state := self, trace := [] }

/-- Stop at a fault without touching any collaborator. -/
def Run.fault {σ : Type} (self : σ) (f : Fault) : Run σ :=
  { ret := .error f, state := self, trace := [] }

/-- Return what a single collaborator call produced, recording the call. -/
def Run.call {σ : Type} (ev : Event) (r : YCPValue × σ) : Run σ :=
  { ret := .ok r.1, state := r.2, trace := [ev] }

/-- Continue with the result of an argument access or downcast, or stop at
its fault. -/
def Run.withAccess {σ α : Type} (self : σ) (a : Except Fault α) (k : α → Run σ) : Run σ :=
  match a with
  | .ok x => k x
  | .error f => Run.fault self f

/-- Short-circuit conjunction `c && rhs`: the right operand is only evaluated
(and can only fault) when the left one is true. -/
def andAlso (c : Bool) (rhs : Except Fault Bool) : Except Fault Bool :=
  if c then rhs else .ok false

/-! ## The operator dispatcher -/

/-- Inner switch of `YCPInterpreter::evaluateBuiltinBuiltin` (source lines
133-185): the kind of `args->value(0)` selects the operation. -/
def dispatchByValuetype {σ : Type} (ext : Externals σ) (self : σ)
    (code : builtin_t) (args : YCPList) : Run σ :=
  Run.withAccess self (args.value 0) fun a0 =>
    match a0.valuetype with
    | .YT_BOOLEAN =>
      if code = .YCPB_NOT then
        Run.withAccess self a0.asBoolean fun b => Run.done self (YCPBoolean (!b))
      else Run.done self YCPNull
    | .YT_INTEGER => Run.call (.evaluateIntegerOp code args) (ext.evaluateIntegerOp self code args)
    | .YT_FLOAT => Run.call (.evaluateFloatOp code args) (ext.evaluateFloatOp self code args)
    | .YT_STRING => Run.call (.evaluateStringOp code args) (ext.evaluateStringOp self code args)
    | .YT_PATH => Run.call (.evaluatePathOp code args) (ext.evaluatePathOp self code args)
    | .YT_LIST => Run.call (.evaluateListOp code args) (ext.evaluateListOp self code args)
    | .YT_MAP => Run.call (.evaluateMapOp code args) (ext.evaluateMapOp self code args)
    | .YT_TERM => Run.call (.evaluateTermOp code args) (ext.evaluateTermOp self code args)
    | .YT_BYTEBLOCK =>
      if code = .YCPB_SIZE then
        Run.withAccess self a0.asByteblockSize fun n => Run.done self (YCPInteger n)
      else Run.done self YCPNull
    | .YT_VOID =>
      if code = .YCPB_LOOKUP then
        Run.call (.evaluateMapOp code args) (ext.evaluateMapOp self code args)
      else Run.done self YCPVoid
    | .YT_BUILTIN => Run.call (.evaluateBuiltinOp code args) (ext.evaluateBuiltinOp self code args)
    | vt => { ret := .ok YCPNull, state := self, trace := [.y2error code vt] }

/-- Condition of the `YCPB_NLOCALE` case (source lines 112-113). -/
def nlocaleArgsOk (args : YCPList) : Except Fault Bool :=
  andAlso (args.size == 3) (do
    let a0 ← args.value 0
    andAlso a0.isString (do
      let a1 ← args.value 1
      andAlso a1.isString (do
        let a2 ← args.value 2
        pure a2.isInteger)))

/-- Member function `YCPInterpreter::evaluateBuiltinBuiltin (code, args)`
(source lines 45-191). -/
def evaluateBuiltinBuiltin {σ : Type} (ext : Externals σ) (self : σ)
    (code : builtin_t) (args : YCPList) : Run σ :=
  if args.size < 1 then Run.done self YCPNull
  else
    match code with
    | .YCPB_EQ =>
      Run.withAccess self (args.value 0) fun a =>
      Run.withAccess self (args.value 1) fun b =>
        Run.done self (YCPBoolean (ext.equal a b))
    | .YCPB_NEQ =>
      Run.withAccess self (args.value 0) fun a =>
      Run.withAccess self (args.value 1) fun b =>
        Run.done self (YCPBoolean (!(ext.equal a b)))
    | .YCPB_ST =>
      Run.withAccess self (args.value 0) fun a =>
      Run.withAccess self (args.value 1) fun b =>
        Run.done self (YCPBoolean (ext.compare a b == .YO_LESS))
    | .YCPB_GT =>
      Run.withAccess self (args.value 0) fun a =>
      Run.withAccess self (args.value 1) fun b =>
        Run.done self (YCPBoolean (ext.compare a b == .YO_GREATER))
    | .YCPB_SE =>
      Run.withAccess self (args.value 0) fun a =>
      Run.withAccess self (args.value 1) fun b =>
        Run.done self (YCPBoolean (ext.compare a b != .YO_GREATER))
    | .YCPB_GE =>
      Run.withAccess self (args.value 0) fun a =>
      Run.withAccess self (args.value 1) fun b =>
        Run.done self (YCPBoolean (ext.compare a b != .YO_LESS))
    | .YCPB_FOREACH =>
      Run.withAccess self
        (andAlso (args.size == 4) (do let a2 ← args.value 2; pure a2.isMap)) fun isMapLoop =>
      if isMapLoop then
        Run.call (.evaluateMapOp code args) (ext.evaluateMapOp self code args)
      else
        Run.withAccess self
          (andAlso (args.size == 3) (do let a1 ← args.value 1; pure a1.isList)) fun isListLoop =>
        if isListLoop then
          Run.call (.evaluateListOp code args) (ext.evaluateListOp self code args)
        else Run.done self YCPNull
    | .YCPB_SORT => Run.call (.evaluateSort args) (ext.evaluateSort self args)
    | .YCPB_NLOCALE =>
      Run.withAccess self (nlocaleArgsOk args) fun ok =>
      if ok then
        Run.withAccess self (args.value 0) fun a0 =>
        Run.withAccess self a0.asString fun singular =>
        Run.withAccess self (args.value 1) fun a1 =>
        Run.withAccess self a1.asString fun plural =>
        Run.withAccess self (args.value 2) fun a2 =>
        Run.withAccess self a2.asInteger fun count =>
          Run.done self (YCPLocale singular plural count)
      else Run.done self (YCPError "Wrong args for nlocale")
    | _ => dispatchByValuetype ext self code args

/-! ## The symbol resolver -/

/-- Member function `YCPInterpreter::evaluateBuiltinTerm (term)` (source lines
196-216). -/
def evaluateBuiltinTerm {σ : Type} (ext : Externals σ) (self : σ) (term : YCPTerm) : Run σ :=
  let symbol := term.symbol
  match ext.in_word_set symbol symbol.utf8ByteSize with
  | some he =>
    let r := he.evaluate self term.args
    let v := r.1
    if v.isSome && v.any YCPValueRep.isError then
      let r2 := ext.evaluate r.2 v
      { ret := .ok r2.1, state := r2.2,
        trace := [.handler he.name term.args, .evaluate v] }
    else
      { ret := .ok v, state := r.2, trace := [.handler he.name term.args] }
  | none => Run.done self YCPNull

/-! ## Vocabulary of the specification -/

/-- The opcodes the dispatcher handles before looking at the kind of the first
argument: EQ, NEQ, LT, GT, LE, GE, FOREACH, SORT and NLOCALE. -/
def typeGeneric (code : builtin_t) : Bool :=
  code = .YCPB_EQ || code = .YCPB_NEQ || code = .YCPB_ST || code = .YCPB_GT ||
  code = .YCPB_SE || code = .YCPB_GE || code = .YCPB_FOREACH || code = .YCPB_SORT ||
  code = .YCPB_NLOCALE

/-- Kind of the argument at position `i`, when there is one. -/
def kindAt (args : YCPList) (i : Nat) : Option YCPValueType :=
  (args.get? i).map YCPValueRep.valuetype

/-- The argument list is exactly (String, String, Integer). -/
def nlocaleShape (args : YCPList) : Bool :=
  args.length = 3 && kindAt args 0 = some .YT_STRING && kindAt args 1 = some .YT_STRING &&
  kindAt args 2 = some .YT_INTEGER

/-- The handle is non-null and points to an Error value. -/
def isErrorValue (v : YCPValue) : Bool :=
  match v with
  | some (.error _) => true
  | _ => false

/-- The six relational opcodes: EQ, NEQ, LT, GT, LE and GE. -/
def relational (code : builtin_t) : Bool :=
  code = .YCPB_EQ || code = .YCPB_NEQ || code = .YCPB_ST || code = .YCPB_GT ||
  code = .YCPB_SE || code = .YCPB_GE

/-- The kinds the inner switch of the dispatcher has a case for: Boolean,
Integer, Float, String, Path, List, Map, Term, Byteblock, Void and Builtin. -/
def knownKind (vt : YCPValueType) : Bool :=
  vt = .YT_BOOLEAN || vt = .YT_INTEGER || vt = .YT_FLOAT || vt = .YT_STRING ||
  vt = .YT_PATH || vt = .YT_LIST || vt = .YT_MAP || vt = .YT_TERM ||
  vt = .YT_BYTEBLOCK || vt = .YT_VOID || vt = .YT_BUILTIN

/-- The run returned (did not fault) and what it returned is an Error value. -/
def Run.returnsError {σ : Type} (r : Run σ) : Bool :=
  match r.ret with
  | .ok v => isErrorValue v
  | .error _ => false

/-- None of the eight per-type evaluators, nor the sort routine, ever returns
an Error value. -/
def Externals.neverError {σ : Type} (ext : Externals σ) : Prop :=
  (∀ st code args, isErrorValue (ext.evaluateIntegerOp st code args).1 = false) ∧
  (∀ st code args, isErrorValue (ext.evaluateFloatOp st code args).1 = false) ∧
  (∀ st code args, isErrorValue (ext.evaluateStringOp st code args).1 = false) ∧
  (∀ st code args, isErrorValue (ext.evaluatePathOp st code args).1 = false) ∧
  (∀ st code args, isErrorValue (ext.evaluateListOp st code args).1 = false) ∧
  (∀ st code args, isErrorValue (ext.evaluateMapOp st code args).1 = false) ∧
  (∀ st code args, isErrorValue (ext.evaluateTermOp st code args).1 = false) ∧
  (∀ st code args, isErrorValue (ext.evaluateBuiltinOp st code args).1 = false) ∧
  (∀ st args, isErrorValue (ext.evaluateSort st args).1 = false)

/-! ## A concrete instantiation, used to evaluate the definitions -/

/-- A sample equality capability: same kind, and same payload on scalars. -/
def sampleEqual : YCPValueRep → YCPValueRep → Bool
  | .void, .void => true
  | .boolean a, .boolean b => a == b
  | .integer a, .integer b => a == b
  | .string a, .string b => a == b
  | _, _ => false

/-- A sample ordering capability: integers by value, everything else equal. -/
def sampleCompare : YCPValueRep → YCPValueRep → YCPOrder
  | .integer a, .integer b => if a < b then .YO_LESS else if b < a then .YO_GREATER else .YO_EQUAL
  | _, _ => .YO_EQUAL

/-- Sample table entry whose handler returns a plain Integer. -/
def sampleSizeEntry : hashentry Nat :=
  { name := "size", evaluate := fun st args => (YCPInteger (Int.ofNat args.length), st + 1) }

/-- Sample table entry whose handler returns an Error. -/
def sampleFailEntry : hashentry Nat :=
  { name := "fail", evaluate := fun st _ => (YCPError "failed", st + 1) }

/-- Sample table entry whose handler returns the null handle. -/
def sampleNoneEntry : hashentry Nat :=
  { name := "none", evaluate := fun st _ => (YCPNull, st + 1) }

/-- A sample builtin table with three names, whose handlers return a plain
value, an Error and the null handle. -/
def sampleTable (name : String) ( _len : Nat) : Option (hashentry Nat) :=
  if name = "size" then some sampleSizeEntry
  else if name = "fail" then some sampleFailEntry
  else if name = "none" then some sampleNoneEntry
  else none

/-- Sample collaborators over a call counter: every evaluator answers with an
integer of its own and increments the counter; the general evaluator wraps
what it is given in a one-element list. -/
def sampleExt : Externals Nat where
  equal := sampleEqual
  compare := sampleCompare
  evaluateIntegerOp := fun st _ _ => (YCPInteger 1, st + 1)
  evaluateFloatOp := fun st _ _ => (YCPInteger 2, st + 1)
  evaluateStringOp := fun st _ _ => (YCPInteger 3, st + 1)
  evaluatePathOp := fun st _ _ => (YCPInteger 4, st + 1)
  evaluateListOp := fun st _ _ => (YCPInteger 5, st + 1)
  evaluateMapOp := fun st _ _ => (YCPInteger 6, st + 1)
  evaluateTermOp := fun st _ _ => (YCPInteger 7, st + 1)
  evaluateBuiltinOp := fun st _ _ => (YCPInteger 8, st + 1)
  evaluateSort := fun st args => (some (.list args), st + 1)
  evaluate := fun st v => (some (.list v.toList), st + 10)
  in_word_set := sampleTable

/-- A second set of sample collaborators with the same value capabilities as
`sampleExt` but different evaluators and sort routine: each of them answers
with an Error and leaves the counter alone. -/
def sampleExtFailing : Externals Nat where
  equal := sampleEqual
  compare := sampleCompare
  evaluateIntegerOp := fun st _ _ => (YCPError "integer", st)
  evaluateFloatOp := fun st _ _ => (YCPError "float", st)
  evaluateStringOp := fun st _ _ => (YCPError "string", st)
  evaluatePathOp := fun st _ _ => (YCPError "path", st)
  evaluateListOp := fun st _ _ => (YCPError "list", st)
  evaluateMapOp := fun st _ _ => (YCPError "map", st)
  evaluateTermOp := fun st _ _ => (YCPError "term", st)
  evaluateBuiltinOp := fun st _ _ => (YCPError "builtin", st)
  evaluateSort := fun st _ => (YCPError "sort", st)
  evaluate := fun st v => (v, st)
  in_word_set := fun _ _ => none

/-! ## Auxiliary facts about argument access -/

theorem value_zero_cons (a : YCPValueRep) (rest : YCPList) :
    YCPList.value (a :: rest) 0 = .ok a := rfl

theorem value_one_cons (a b : YCPValueRep) (rest : YCPList) :
    YCPList.value (a :: b :: rest) 1 = .ok b := rfl

theorem value_two_cons (a b c : YCPValueRep) (rest : YCPList) :
    YCPList.value (a :: b :: c :: rest) 2 = .ok c := rfl

theorem size_cons (a : YCPValueRep) (rest : YCPList) :
    YCPList.size (a :: rest) = rest.length + 1 := rfl

theorem kindAt_zero_cons (a : YCPValueRep) (rest : YCPList) :
    kindAt (a :: rest) 0 = some a.valuetype := rfl

theorem kindAt_zero_nil : kindAt [] 0 = none := rfl

/-- On a non-type-generic opcode and a non-empty list the dispatcher is its
inner switch on the kind of the first argument. -/
theorem dispatch_default {σ : Type} (ext : Externals σ) (self : σ) (code : builtin_t)
    (a : YCPValueRep) (rest : YCPList) (hcode : typeGeneric code = false) :
    evaluateBuiltinBuiltin ext self code (a :: rest)
      = dispatchByValuetype ext self code (a :: rest) := by
  cases code <;> simp [typeGeneric] at hcode <;>
    simp [evaluateBuiltinBuiltin, size_cons]

/-! ## Properties of the operator dispatcher -/

/-- C1: for an opcode that is not type-generic and an argument list whose first
element is an Integer, Float, String, Path, List, Map, Term or Builtin, the
dispatcher returns exactly what the matching per-type evaluator returns on the
same opcode and the same argument list, and that call is its only
interaction. -/
theorem dispatch_delegates_by_first_kind {σ : Type} (ext : Externals σ) (self : σ)
    (code : builtin_t) (args : YCPList) (hcode : typeGeneric code = false) :
    (kindAt args 0 = some .YT_INTEGER → evaluateBuiltinBuiltin ext self code args
        = Run.call (.evaluateIntegerOp code args) (ext.evaluateIntegerOp self code args)) ∧
    (kindAt args 0 = some .YT_FLOAT → evaluateBuiltinBuiltin ext self code args
        = Run.call (.evaluateFloatOp code args) (ext.evaluateFloatOp self code args)) ∧
    (kindAt args 0 = some .YT_STRING → evaluateBuiltinBuiltin ext self code args
        = Run.call (.evaluateStringOp code args) (ext.evaluateStringOp self code args)) ∧
    (kindAt args 0 = some .YT_PATH → evaluateBuiltinBuiltin ext self code args
        = Run.call (.evaluatePathOp code args) (ext.evaluatePathOp self code args)) ∧
    (kindAt args 0 = some .YT_LIST → evaluateBuiltinBuiltin ext self code args
        = Run.call (.evaluateListOp code args) (ext.evaluateListOp self code args)) ∧
    (kindAt args 0 = some .YT_MAP → evaluateBuiltinBuiltin ext self code args
        = Run.call (.evaluateMapOp code args) (ext.evaluateMapOp self code args)) ∧
    (kindAt args 0 = some .YT_TERM → evaluateBuiltinBuiltin ext self code args
        = Run.call (.evaluateTermOp code args) (ext.evaluateTermOp self code args)) ∧
    (kindAt args 0 = some .YT_BUILTIN → evaluateBuiltinBuiltin ext self code args
        = Run.call (.evaluateBuiltinOp code args) (ext.evaluateBuiltinOp self code args)) := by
  cases args with
  | nil => simp [kindAt_zero_nil]
  | cons a rest =>
    rw [dispatch_default ext self code a rest hcode]
    simp only [kindAt_zero_cons, Option.some.injEq]
    refine ⟨?_, ?_, ?_, ?_, ?_, ?_, ?_, ?_⟩ <;> intro hk <;>
      simp [dispatchByValuetype, value_zero_cons, Run.withAccess, hk]

/-- C1, evaluated: on the sample collaborators an opcode outside the
type-generic set applied to an Integer goes to the Integer evaluator. -/
theorem dispatch_delegates_by_first_kind_witness :
    typeGeneric (.YCPB_OTHER 7) = false ∧
    kindAt [.integer 5, .string "x"] 0 = some .YT_INTEGER ∧
    evaluateBuiltinBuiltin sampleExt 0 (.YCPB_OTHER 7) [.integer 5, .string "x"]
      = Run.call (.evaluateIntegerOp (.YCPB_OTHER 7) [.integer 5, .string "x"])
          (sampleExt.evaluateIntegerOp 0 (.YCPB_OTHER 7) [.integer 5, .string "x"]) :=
  ⟨rfl, rfl,
    (dispatch_delegates_by_first_kind sampleExt 0 (.YCPB_OTHER 7)
      [.integer 5, .string "x"] rfl).1 rfl⟩

/-- C2: on an argument list that starts with a and b, EQ returns
Boolean(a.equal(b)), LT returns Boolean(a.compare(b) = LESS), GT returns
Boolean(a.compare(b) = GREATER), LE returns Boolean(not (a.compare(b) =
GREATER)) and GE returns Boolean(not (a.compare(b) = LESS)), whatever the
kinds of a and b and whatever follows them; no collaborator is called. -/
theorem dispatch_relational {σ : Type} (ext : Externals σ) (self : σ)
    (a b : YCPValueRep) (rest : YCPList) :
    evaluateBuiltinBuiltin ext self .YCPB_EQ (a :: b :: rest)
        = Run.done self (YCPBoolean (ext.equal a b)) ∧
    evaluateBuiltinBuiltin ext self .YCPB_ST (a :: b :: rest)
        = Run.done self (YCPBoolean (decide (ext.compare a b = .YO_LESS))) ∧
    evaluateBuiltinBuiltin ext self .YCPB_GT (a :: b :: rest)
        = Run.done self (YCPBoolean (decide (ext.compare a b = .YO_GREATER))) ∧
    evaluateBuiltinBuiltin ext self .YCPB_SE (a :: b :: rest)
        = Run.done self (YCPBoolean (!decide (ext.compare a b = .YO_GREATER))) ∧
    evaluateBuiltinBuiltin ext self .YCPB_GE (a :: b :: rest)
        = Run.done self (YCPBoolean (!decide (ext.compare a b = .YO_LESS))) := by
  refine ⟨?_, ?_, ?_, ?_, ?_⟩ <;>
    simp only [evaluateBuiltinBuiltin, size_cons, value_zero_cons, value_one_cons,
      Run.withAccess, bne, Nat.lt_one_iff, Nat.add_one_ne_zero, if_false] <;>
    cases ext.compare a b <;> rfl

/-- C3: for all values a and b (of the same kind or not), NEQ on [a, b]
returns the Boolean negation of what EQ returns on [a, b]. -/
theorem dispatch_neq_is_not_eq {σ : Type} (ext : Externals σ) (self : σ)
    (a b : YCPValueRep) :
    ∃ r : Bool,
      evaluateBuiltinBuiltin ext self .YCPB_EQ [a, b] = Run.done self (YCPBoolean r) ∧
      evaluateBuiltinBuiltin ext self .YCPB_NEQ [a, b] = Run.done self (YCPBoolean (!r)) := by
  refine ⟨ext.equal a b, ?_, ?_⟩ <;>
    simp [evaluateBuiltinBuiltin, size_cons, value_zero_cons, value_one_cons, Run.withAccess]

/-- C4: on the empty argument list every opcode returns the null handle, the
interpreter state is untouched and no collaborator is called. -/
theorem dispatch_empty_args {σ : Type} (ext : Externals σ) (self : σ) (code : builtin_t) :
    (evaluateBuiltinBuiltin ext self code []).ret = .ok YCPNull ∧
    (evaluateBuiltinBuiltin ext self code []).state = self ∧
    (evaluateBuiltinBuiltin ext self code []).trace = [] := by
  simp [evaluateBuiltinBuiltin, YCPList.size, Run.done]

/-- Closed form of the FOREACH case: the two guarded delegations, tried in
source order, and the null handle when neither guard holds. -/
theorem dispatch_foreach_eq {σ : Type} (ext : Externals σ) (self : σ) (args : YCPList) :
    evaluateBuiltinBuiltin ext self .YCPB_FOREACH args =
      if args.length = 4 ∧ kindAt args 2 = some .YT_MAP then
        Run.call (.evaluateMapOp .YCPB_FOREACH args) (ext.evaluateMapOp self .YCPB_FOREACH args)
      else if args.length = 3 ∧ kindAt args 1 = some .YT_LIST then
        Run.call (.evaluateListOp .YCPB_FOREACH args) (ext.evaluateListOp self .YCPB_FOREACH args)
      else Run.done self YCPNull := by
  match args with
  | [] => simp [evaluateBuiltinBuiltin, YCPList.size]
  | [_] => simp [evaluateBuiltinBuiltin, YCPList.size, andAlso, Run.withAccess]
  | [_, _] => simp [evaluateBuiltinBuiltin, YCPList.size, andAlso, Run.withAccess]
  | [_, b, _] =>
    by_cases hb : b.valuetype = .YT_LIST <;>
      simp [evaluateBuiltinBuiltin, YCPList.size, andAlso, Run.withAccess, value_one_cons,
        kindAt, YCPValueRep.isList, hb, bind, Except.bind, pure, Except.pure]
  | [_, _, c, _] =>
    by_cases hc : c.valuetype = .YT_MAP <;>
      simp [evaluateBuiltinBuiltin, YCPList.size, andAlso, Run.withAccess, value_two_cons,
        kindAt, YCPValueRep.isMap, hc, bind, Except.bind, pure, Except.pure]
  | _ :: _ :: _ :: _ :: _ :: _ =>
    simp [evaluateBuiltinBuiltin, YCPList.size, andAlso, Run.withAccess]

/-- C5: FOREACH on exactly four arguments with a Map at index 2 returns what
the Map evaluator returns on (FOREACH, args); on exactly three arguments with
a List at index 1 it returns what the List evaluator returns on (FOREACH,
args); on every other argument list, the empty one included, it returns the
null handle without calling any collaborator, whatever the kind of the first
argument. -/
theorem dispatch_foreach_routing {σ : Type} (ext : Externals σ) (self : σ) (args : YCPList) :
    (args.length = 4 ∧ kindAt args 2 = some .YT_MAP →
      evaluateBuiltinBuiltin ext self .YCPB_FOREACH args
        = Run.call (.evaluateMapOp .YCPB_FOREACH args)
            (ext.evaluateMapOp self .YCPB_FOREACH args)) ∧
    (args.length = 3 ∧ kindAt args 1 = some .YT_LIST →
      evaluateBuiltinBuiltin ext self .YCPB_FOREACH args
        = Run.call (.evaluateListOp .YCPB_FOREACH args)
            (ext.evaluateListOp self .YCPB_FOREACH args)) ∧
    (¬ (args.length = 4 ∧ kindAt args 2 = some .YT_MAP) ∧
      ¬ (args.length = 3 ∧ kindAt args 1 = some .YT_LIST) →
      evaluateBuiltinBuiltin ext self .YCPB_FOREACH args = Run.done self YCPNull) := by
  rw [dispatch_foreach_eq]
  refine ⟨?_, ?_, ?_⟩
  · intro h
    rw [if_pos h]
  · intro h
    have h4 : ¬ (args.length = 4 ∧ kindAt args 2 = some .YT_MAP) := by
      intro h4
      omega
    rw [if_neg h4, if_pos h]
  · intro h
    rw [if_neg h.1, if_neg h.2]

/-- C5, evaluated on the sample collaborators: a four-element list with a Map
at index 2, a three-element list with a List at index 1, and a four-element
list whose first element is a Map but whose third is not. -/
theorem dispatch_foreach_routing_witness :
    evaluateBuiltinBuiltin sampleExt 0 .YCPB_FOREACH [.void, .void, .map [], .void]
      = Run.call (.evaluateMapOp .YCPB_FOREACH [.void, .void, .map [], .void])
          (sampleExt.evaluateMapOp 0 .YCPB_FOREACH [.void, .void, .map [], .void]) ∧
    evaluateBuiltinBuiltin sampleExt 0 .YCPB_FOREACH [.void, .list [], .void]
      = Run.call (.evaluateListOp .YCPB_FOREACH [.void, .list [], .void])
          (sampleExt.evaluateListOp 0 .YCPB_FOREACH [.void, .list [], .void]) ∧
    evaluateBuiltinBuiltin sampleExt 0 .YCPB_FOREACH [.map [], .list [], .void, .void]
      = Run.done 0 YCPNull :=
  ⟨(dispatch_foreach_routing sampleExt 0 [.void, .void, .map [], .void]).1 ⟨rfl, rfl⟩,
   (dispatch_foreach_routing sampleExt 0 [.void, .list [], .void]).2.1 ⟨rfl, rfl⟩,
   (dispatch_foreach_routing sampleExt 0 [.map [], .list [], .void, .void]).2.2
     ⟨by simp [kindAt, YCPValueRep.valuetype], by simp⟩⟩

/-- C6: NLOCALE on [String s1, String s2, Integer n] returns the locale value
built from (s1, s2, n) in that order, and calls no collaborator. -/
theorem dispatch_nlocale_success {σ : Type} (ext : Externals σ) (self : σ)
    (s1 s2 : String) (n : Int) :
    evaluateBuiltinBuiltin ext self .YCPB_NLOCALE [.string s1, .string s2, .integer n]
      = Run.done self (some (.locale s1 s2 n)) := by
  rfl

/-- The guard of the NLOCALE case never faults and decides exactly whether the
argument list is (String, String, Integer). -/
theorem nlocaleArgsOk_eq (args : YCPList) : nlocaleArgsOk args = .ok (nlocaleShape args) := by
  match args with
  | [] => simp [nlocaleArgsOk, nlocaleShape, YCPList.size, andAlso]
  | [_] => simp [nlocaleArgsOk, nlocaleShape, YCPList.size, andAlso]
  | [_, _] => simp [nlocaleArgsOk, nlocaleShape, YCPList.size, andAlso]
  | [a, b, c] =>
    by_cases ha : a.valuetype = .YT_STRING <;> by_cases hb : b.valuetype = .YT_STRING <;>
      by_cases hc : c.valuetype = .YT_INTEGER <;>
      simp [nlocaleArgsOk, nlocaleShape, YCPList.size, andAlso, value_zero_cons, value_one_cons,
        value_two_cons, kindAt, YCPValueRep.isString, YCPValueRep.isInteger, ha, hb, hc,
        bind, Except.bind, pure, Except.pure]
  | _ :: _ :: _ :: _ :: _ => simp [nlocaleArgsOk, nlocaleShape, YCPList.size, andAlso]

/-- C7, as stated, fails on the empty argument list: it is not of shape
(String, String, Integer), yet NLOCALE returns the null handle there, not the
Error. -/
theorem dispatch_nlocale_empty_is_null :
    nlocaleShape [] = false ∧
    evaluateBuiltinBuiltin sampleExt 0 .YCPB_NLOCALE [] = Run.done 0 YCPNull ∧
    (evaluateBuiltinBuiltin sampleExt 0 .YCPB_NLOCALE []).ret
      ≠ .ok (YCPError "Wrong args for nlocale") ∧
    isErrorValue YCPNull = false := by
  refine ⟨rfl, rfl, ?_, rfl⟩
  simp [evaluateBuiltinBuiltin, YCPList.size, Run.done, YCPNull, YCPError]

/-- C7, amended: for every non-empty argument list that is not exactly
(String, String, Integer), NLOCALE returns the Error value with the message
"Wrong args for nlocale" (not the null handle) and calls no collaborator. -/
theorem dispatch_nlocale_misuse {σ : Type} (ext : Externals σ) (self : σ) (args : YCPList)
    (hne : args ≠ []) (hshape : nlocaleShape args = false) :
    evaluateBuiltinBuiltin ext self .YCPB_NLOCALE args
      = Run.done self (some (.error "Wrong args for nlocale")) ∧
    isErrorValue (some (.error "Wrong args for nlocale")) = true := by
  cases args with
  | nil => exact absurd rfl hne
  | cons a rest =>
    simp [evaluateBuiltinBuiltin, size_cons, nlocaleArgsOk_eq, hshape, Run.withAccess,
      YCPError, isErrorValue]

/-- C7 amended, evaluated: a one-element list, a three-element list of the
wrong kinds and a four-element list all give the Error. -/
theorem dispatch_nlocale_misuse_witness :
    ([YCPValueRep.string "a"] ≠ [] ∧ nlocaleShape [.string "a"] = false ∧
      evaluateBuiltinBuiltin sampleExt 0 .YCPB_NLOCALE [.string "a"]
        = Run.done 0 (some (.error "Wrong args for nlocale"))) ∧
    evaluateBuiltinBuiltin sampleExt 0 .YCPB_NLOCALE [.string "a", .integer 2, .string "b"]
        = Run.done 0 (some (.error "Wrong args for nlocale")) ∧
    evaluateBuiltinBuiltin sampleExt 0 .YCPB_NLOCALE
        [.string "a", .string "b", .integer 2, .void]
        = Run.done 0 (some (.error "Wrong args for nlocale")) :=
  ⟨⟨by simp, rfl, (dispatch_nlocale_misuse sampleExt 0 [.string "a"] (by simp) rfl).1⟩,
   (dispatch_nlocale_misuse sampleExt 0 [.string "a", .integer 2, .string "b"]
     (by simp) rfl).1,
   (dispatch_nlocale_misuse sampleExt 0 [.string "a", .string "b", .integer 2, .void]
     (by simp) rfl).1⟩

/-- C10: on every non-empty argument list SORT returns what the sort routine
returns on that list, and the call of the sort routine is the only
interaction: the kind of the first argument plays no part and no per-type
evaluator is called. -/
theorem dispatch_sort_generic {σ : Type} (ext : Externals σ) (self : σ) (args : YCPList)
    (hne : args ≠ []) :
    evaluateBuiltinBuiltin ext self .YCPB_SORT args
      = Run.call (.evaluateSort args) (ext.evaluateSort self args) := by
  cases args with
  | nil => exact absurd rfl hne
  | cons a rest => simp [evaluateBuiltinBuiltin, size_cons]

/-- C10, evaluated: SORT on lists that start with Void, a Boolean, a Byteblock
and a value of an unknown kind goes to the sort routine each time. -/
theorem dispatch_sort_generic_witness :
    ([YCPValueRep.void, .integer 2] ≠ [] ∧
      evaluateBuiltinBuiltin sampleExt 0 .YCPB_SORT [.void, .integer 2]
        = Run.call (.evaluateSort [.void, .integer 2])
            (sampleExt.evaluateSort 0 [.void, .integer 2])) ∧
    (evaluateBuiltinBuiltin sampleExt 0 .YCPB_SORT [.boolean true]).trace
        = [.evaluateSort [.boolean true]] ∧
    (evaluateBuiltinBuiltin sampleExt 0 .YCPB_SORT [.byteblock [1, 2]]).trace
        = [.evaluateSort [.byteblock [1, 2]]] ∧
    (evaluateBuiltinBuiltin sampleExt 0 .YCPB_SORT [.other 42]).trace
        = [.evaluateSort [.other 42]] :=
  ⟨⟨by simp, dispatch_sort_generic sampleExt 0 [.void, .integer 2] (by simp)⟩,
   congrArg Run.trace (dispatch_sort_generic sampleExt 0 [.boolean true] (by simp)),
   congrArg Run.trace (dispatch_sort_generic sampleExt 0 [.byteblock [1, 2]] (by simp)),
   congrArg Run.trace (dispatch_sort_generic sampleExt 0 [.other 42] (by simp))⟩

/-! ## Properties of the symbol resolver -/

/-- The chaining test of the resolver, `!v.isNull() && v->isError()`, holds
exactly for a non-null handle to an Error value. -/
theorem chain_test_eq (v : YCPValue) :
    (v.isSome && v.any YCPValueRep.isError) = isErrorValue v := by
  cases v with
  | none => rfl
  | some rep => cases rep <;> rfl

/-- C8: when the name of the term is in the builtin table, the resolver calls
the registered handler on the raw argument list of the term.  If the handler
returns a non-null Error value v, the resolver then calls the general
evaluator on v and returns its result; if the handler returns the null handle
or a non-Error value, the resolver returns it as it is and the general
evaluator is not called.  With a general evaluator that returns its argument,
the resolver returns what the handler returned in both cases. -/
theorem resolver_hit {σ : Type} (ext : Externals σ) (self : σ) (term : YCPTerm)
    (he : hashentry σ)
    (hhit : ext.in_word_set term.symbol term.symbol.utf8ByteSize = some he) :
    (isErrorValue (he.evaluate self term.args).1 = true →
      evaluateBuiltinTerm ext self term =
        { ret := .ok (ext.evaluate (he.evaluate self term.args).2
                        (he.evaluate self term.args).1).1,
          state := (ext.evaluate (he.evaluate self term.args).2
                        (he.evaluate self term.args).1).2,
          trace := [.handler he.name term.args,
                    .evaluate (he.evaluate self term.args).1] }) ∧
    (isErrorValue (he.evaluate self term.args).1 = false →
      evaluateBuiltinTerm ext self term =
        { ret := .ok (he.evaluate self term.args).1,
          state := (he.evaluate self term.args).2,
          trace := [.handler he.name term.args] }) ∧
    ((∀ st w, (ext.evaluate st w).1 = w) →
      (evaluateBuiltinTerm ext self term).ret = .ok (he.evaluate self term.args).1) := by
  refine ⟨?_, ?_, ?_⟩
  · intro herr
    simp only [evaluateBuiltinTerm, hhit, chain_test_eq, herr, if_true]
  · intro herr
    simp [evaluateBuiltinTerm, hhit, chain_test_eq, herr]
  · intro hid
    cases herr : isErrorValue (he.evaluate self term.args).1 <;>
      simp [evaluateBuiltinTerm, hhit, chain_test_eq, herr, hid]

/-- C8, evaluated on the sample table: the handler of "fail" returns an Error,
which is handed to the general evaluator (here: wrap in a list). -/
theorem resolver_hit_witness :
    sampleExt.in_word_set "fail" ("fail" : String).utf8ByteSize = some sampleFailEntry ∧
    isErrorValue (sampleFailEntry.evaluate 0 [.integer 1]).1 = true ∧
    evaluateBuiltinTerm sampleExt 0 { symbol := "fail", args := [.integer 1] } =
      { ret := .ok (some (.list [.error "failed"])),
        state := 11,
        trace := [.handler "fail" [.integer 1], .evaluate (some (.error "failed"))] } :=
  ⟨rfl, rfl,
    (resolver_hit sampleExt 0 { symbol := "fail", args := [.integer 1] } sampleFailEntry
      rfl).1 rfl⟩

/-- C9: when the name of the term is not in the builtin table, the resolver
returns the null handle, leaves the interpreter state untouched, and calls
neither a handler nor the general evaluator. -/
theorem resolver_miss {σ : Type} (ext : Externals σ) (self : σ) (term : YCPTerm)
    (hmiss : ext.in_word_set term.symbol term.symbol.utf8ByteSize = none) :
    (evaluateBuiltinTerm ext self term).ret = .ok YCPNull ∧
    (evaluateBuiltinTerm ext self term).state = self ∧
    (evaluateBuiltinTerm ext self term).trace = [] := by
  simp [evaluateBuiltinTerm, hmiss, Run.done]

/-- C9, evaluated on the sample table, which has no entry for "unknown_name". -/
theorem resolver_miss_witness :
    sampleExt.in_word_set "unknown_name" ("unknown_name" : String).utf8ByteSize = none ∧
    (evaluateBuiltinTerm sampleExt 0 { symbol := "unknown_name", args := [.integer 1] }).ret
      = .ok YCPNull ∧
    (evaluateBuiltinTerm sampleExt 0 { symbol := "unknown_name", args := [.integer 1] }).state
      = 0 ∧
    (evaluateBuiltinTerm sampleExt 0 { symbol := "unknown_name", args := [.integer 1] }).trace
      = [] :=
  ⟨rfl, resolver_miss sampleExt 0 { symbol := "unknown_name", args := [.integer 1] } rfl⟩

/-! ## Type-specific dispatch on Void, Boolean, Byteblock and unknown kinds -/

/-- C11: for an opcode that is not type-generic and an argument list whose
first element is Void, the dispatcher returns what the Map evaluator returns
on (LOOKUP, args) when the opcode is LOOKUP, and the Void value itself, with
no collaborator called, for every other such opcode. -/
theorem dispatch_void_absorbs {σ : Type} (ext : Externals σ) (self : σ)
    (code : builtin_t) (args : YCPList) (hcode : typeGeneric code = false)
    (hvoid : kindAt args 0 = some .YT_VOID) :
    (code = .YCPB_LOOKUP → evaluateBuiltinBuiltin ext self code args
        = Run.call (.evaluateMapOp .YCPB_LOOKUP args)
            (ext.evaluateMapOp self .YCPB_LOOKUP args)) ∧
    (code ≠ .YCPB_LOOKUP → evaluateBuiltinBuiltin ext self code args
        = Run.done self (some .void)) := by
  cases args with
  | nil => simp [kindAt_zero_nil] at hvoid
  | cons a rest =>
    rw [dispatch_default ext self code a rest hcode]
    simp only [kindAt_zero_cons, Option.some.injEq] at hvoid
    constructor
    · intro hl
      subst hl
      simp [dispatchByValuetype, value_zero_cons, Run.withAccess, hvoid]
    · intro hl
      simp [dispatchByValuetype, value_zero_cons, Run.withAccess, hvoid, hl, YCPVoid]

/-- C11, evaluated on the sample collaborators: LOOKUP on a Void container
goes to the Map evaluator, SIZE on Void gives Void. -/
theorem dispatch_void_absorbs_witness :
    (typeGeneric .YCPB_LOOKUP = false ∧
      kindAt [.void, .string "key", .integer 0] 0 = some .YT_VOID ∧
      evaluateBuiltinBuiltin sampleExt 0 .YCPB_LOOKUP [.void, .string "key", .integer 0]
        = Run.call (.evaluateMapOp .YCPB_LOOKUP [.void, .string "key", .integer 0])
            (sampleExt.evaluateMapOp 0 .YCPB_LOOKUP [.void, .string "key", .integer 0])) ∧
    (typeGeneric .YCPB_SIZE = false ∧ kindAt [.void] 0 = some .YT_VOID ∧
      builtin_t.YCPB_SIZE ≠ .YCPB_LOOKUP ∧
      evaluateBuiltinBuiltin sampleExt 0 .YCPB_SIZE [.void] = Run.done 0 (some .void)) :=
  ⟨⟨rfl, rfl,
     (dispatch_void_absorbs sampleExt 0 .YCPB_LOOKUP [.void, .string "key", .integer 0]
       rfl rfl).1 rfl⟩,
   ⟨rfl, rfl, by decide,
     (dispatch_void_absorbs sampleExt 0 .YCPB_SIZE [.void] rfl rfl).2 (by decide)⟩⟩

/-- C12: on an argument list whose first element is Boolean(b), NOT returns
Boolean(not b), so NOT applied to that result returns Boolean(b) again; every
other opcode that is not type-generic returns the null handle.  No
collaborator is called in either case. -/
theorem dispatch_boolean_operand {σ : Type} (ext : Externals σ) (self : σ)
    (b : Bool) (rest : YCPList) :
    evaluateBuiltinBuiltin ext self .YCPB_NOT (.boolean b :: rest)
        = Run.done self (YCPBoolean (!b)) ∧
    evaluateBuiltinBuiltin ext self .YCPB_NOT (.boolean (!b) :: rest)
        = Run.done self (YCPBoolean b) ∧
    (∀ code : builtin_t, typeGeneric code = false → code ≠ .YCPB_NOT →
      evaluateBuiltinBuiltin ext self code (.boolean b :: rest) = Run.done self YCPNull) := by
  refine ⟨?_, ?_, ?_⟩
  · rfl
  · rw [dispatch_default ext self .YCPB_NOT _ rest rfl]
    simp [dispatchByValuetype, value_zero_cons, Run.withAccess, YCPValueRep.valuetype,
      YCPValueRep.asBoolean]
  · intro code hcode hnot
    rw [dispatch_default ext self code _ rest hcode]
    simp [dispatchByValuetype, value_zero_cons, Run.withAccess, YCPValueRep.valuetype, hnot]

/-- C12, evaluated: NOT on true, NOT on the result, and SIZE on a Boolean. -/
theorem dispatch_boolean_operand_witness :
    evaluateBuiltinBuiltin sampleExt 0 .YCPB_NOT [.boolean true, .integer 4]
        = Run.done 0 (some (.boolean false)) ∧
    evaluateBuiltinBuiltin sampleExt 0 .YCPB_NOT [.boolean false, .integer 4]
        = Run.done 0 (some (.boolean true)) ∧
    (typeGeneric .YCPB_SIZE = false ∧ builtin_t.YCPB_SIZE ≠ .YCPB_NOT ∧
      evaluateBuiltinBuiltin sampleExt 0 .YCPB_SIZE [.boolean true, .integer 4]
        = Run.done 0 YCPNull) :=
  ⟨(dispatch_boolean_operand sampleExt 0 true [.integer 4]).1,
   (dispatch_boolean_operand sampleExt 0 true [.integer 4]).2.1,
   ⟨rfl, by decide,
     (dispatch_boolean_operand sampleExt 0 true [.integer 4]).2.2 .YCPB_SIZE rfl
       (by decide)⟩⟩

/-- C13: on an argument list whose first element is a byteblock of n bytes,
SIZE returns Integer(n) and calls no collaborator. -/
theorem dispatch_byteblock_size {σ : Type} (ext : Externals σ) (self : σ)
    (bytes : List Nat) (rest : YCPList) :
    evaluateBuiltinBuiltin ext self .YCPB_SIZE (.byteblock bytes :: rest)
      = Run.done self (YCPInteger (Int.ofNat bytes.length)) := by
  rfl

/-- C14, as stated, fails on NLOCALE and on SORT, which are opcodes other than
SIZE: on a single byteblock NLOCALE returns the Error and SORT returns what
the sort routine returns (here a list), not the null handle. -/
theorem dispatch_byteblock_generic_not_null :
    builtin_t.YCPB_NLOCALE ≠ .YCPB_SIZE ∧
    evaluateBuiltinBuiltin sampleExt 0 .YCPB_NLOCALE [.byteblock [1, 2]]
      = Run.done 0 (some (.error "Wrong args for nlocale")) ∧
    (evaluateBuiltinBuiltin sampleExt 0 .YCPB_NLOCALE [.byteblock [1, 2]]).ret
      ≠ .ok YCPNull ∧
    builtin_t.YCPB_SORT ≠ .YCPB_SIZE ∧
    (evaluateBuiltinBuiltin sampleExt 0 .YCPB_SORT [.byteblock [1, 2]]).ret
      = .ok (some (.list [.byteblock [1, 2]])) ∧
    (evaluateBuiltinBuiltin sampleExt 0 .YCPB_SORT [.byteblock [1, 2]]).ret
      ≠ .ok YCPNull := by
  refine ⟨by decide, rfl, ?_, by decide, rfl, ?_⟩
  · simp [evaluateBuiltinBuiltin, YCPList.size, nlocaleArgsOk, andAlso, Run.withAccess,
      Run.done, YCPNull, YCPError]
  · simp [evaluateBuiltinBuiltin, YCPList.size, Run.call, YCPNull, sampleExt]

/-- C14, amended: for every opcode other than SIZE, SORT, NLOCALE and the six
relational opcodes, and every byteblock b, the dispatcher returns the null
handle on [b] and calls no collaborator. -/
theorem dispatch_byteblock_other {σ : Type} (ext : Externals σ) (self : σ)
    (code : builtin_t) (bytes : List Nat)
    (hsize : code ≠ .YCPB_SIZE) (hsort : code ≠ .YCPB_SORT) (hnlocale : code ≠ .YCPB_NLOCALE)
    (hrel : relational code = false) :
    evaluateBuiltinBuiltin ext self code [.byteblock bytes] = Run.done self YCPNull := by
  cases code <;> simp [relational] at hrel hsize hsort hnlocale ⊢ <;>
    simp [evaluateBuiltinBuiltin, YCPList.size, andAlso, Run.withAccess, dispatchByValuetype,
      value_zero_cons, YCPValueRep.valuetype]

/-- C14 amended, evaluated: FOREACH, NOT, LOOKUP and an opcode outside the
named ones all give the null handle on a single byteblock. -/
theorem dispatch_byteblock_other_witness :
    (builtin_t.YCPB_FOREACH ≠ .YCPB_SIZE ∧ builtin_t.YCPB_FOREACH ≠ .YCPB_SORT ∧
      builtin_t.YCPB_FOREACH ≠ .YCPB_NLOCALE ∧ relational .YCPB_FOREACH = false ∧
      evaluateBuiltinBuiltin sampleExt 0 .YCPB_FOREACH [.byteblock [1, 2]]
        = Run.done 0 YCPNull) ∧
    evaluateBuiltinBuiltin sampleExt 0 .YCPB_NOT [.byteblock [1, 2]] = Run.done 0 YCPNull ∧
    evaluateBuiltinBuiltin sampleExt 0 .YCPB_LOOKUP [.byteblock [1, 2]] = Run.done 0 YCPNull ∧
    evaluateBuiltinBuiltin sampleExt 0 (.YCPB_OTHER 9) [.byteblock [1, 2]]
      = Run.done 0 YCPNull :=
  ⟨⟨by decide, by decide, by decide, rfl,
     dispatch_byteblock_other sampleExt 0 .YCPB_FOREACH [1, 2]
       (by decide) (by decide) (by decide) rfl⟩,
   dispatch_byteblock_other sampleExt 0 .YCPB_NOT [1, 2]
     (by decide) (by decide) (by decide) rfl,
   dispatch_byteblock_other sampleExt 0 .YCPB_LOOKUP [1, 2]
     (by decide) (by decide) (by decide) rfl,
   dispatch_byteblock_other sampleExt 0 (.YCPB_OTHER 9) [1, 2]
     (by decide) (by decide) (by decide) rfl⟩

/-- C15: for an opcode that is not type-generic and a non-empty argument list
whose first element is of none of the kinds Boolean, Integer, Float, String,
Path, List, Map, Term, Byteblock, Void, Builtin, the dispatcher returns the
null handle and leaves the interpreter state untouched; its only interaction
is the diagnostic log entry, so no evaluator is called. -/
theorem dispatch_unknown_kind {σ : Type} (ext : Externals σ) (self : σ)
    (code : builtin_t) (a : YCPValueRep) (rest : YCPList)
    (hcode : typeGeneric code = false) (hkind : knownKind a.valuetype = false) :
    (evaluateBuiltinBuiltin ext self code (a :: rest)).ret = .ok YCPNull ∧
    (evaluateBuiltinBuiltin ext self code (a :: rest)).state = self ∧
    (evaluateBuiltinBuiltin ext self code (a :: rest)).trace
      = [.y2error code a.valuetype] := by
  rw [dispatch_default ext self code a rest hcode]
  cases a <;> simp [knownKind, YCPValueRep.valuetype] at hkind <;>
    simp [dispatchByValuetype, value_zero_cons, Run.withAccess, YCPValueRep.valuetype]

/-- C15, evaluated: SIZE on an Error value, on a Locale value and on a value
of a kind the dispatcher does not know. -/
theorem dispatch_unknown_kind_witness :
    (typeGeneric .YCPB_SIZE = false ∧ knownKind (YCPValueRep.error "boom").valuetype = false ∧
      (evaluateBuiltinBuiltin sampleExt 0 .YCPB_SIZE [.error "boom", .integer 1]).ret
        = .ok YCPNull ∧
      (evaluateBuiltinBuiltin sampleExt 0 .YCPB_SIZE [.error "boom", .integer 1]).state = 0 ∧
      (evaluateBuiltinBuiltin sampleExt 0 .YCPB_SIZE [.error "boom", .integer 1]).trace
        = [.y2error .YCPB_SIZE .YT_ERROR]) ∧
    (evaluateBuiltinBuiltin sampleExt 0 .YCPB_SIZE [.locale "one" "many" 2]).ret
        = .ok YCPNull ∧
    (evaluateBuiltinBuiltin sampleExt 0 .YCPB_SIZE [.other 17]).ret = .ok YCPNull :=
  ⟨⟨rfl, rfl,
     dispatch_unknown_kind sampleExt 0 .YCPB_SIZE (.error "boom") [.integer 1] rfl rfl⟩,
   (dispatch_unknown_kind sampleExt 0 .YCPB_SIZE (.locale "one" "many" 2) [] rfl rfl).1,
   (dispatch_unknown_kind sampleExt 0 .YCPB_SIZE (.other 17) [] rfl rfl).1⟩

/-! ## Argument access, Boolean results and the origin of Error values -/

/-- A list of shape (String, String, Integer) is a String, a String and an
Integer. -/
theorem nlocaleShape_true (args : YCPList) (h : nlocaleShape args = true) :
    ∃ s1 s2 n, args = [.string s1, .string s2, .integer n] := by
  match args with
  | [] => simp [nlocaleShape] at h
  | [_] => simp [nlocaleShape] at h
  | [_, _] => simp [nlocaleShape] at h
  | [a, b, c] =>
    simp only [nlocaleShape, kindAt, List.get?, Option.map_some', List.length_cons,
      List.length_nil, Bool.and_eq_true, decide_eq_true_eq, Option.some.injEq] at h
    obtain ⟨⟨⟨_, ha⟩, hb⟩, hc⟩ := h
    cases a <;> simp [YCPValueRep.valuetype] at ha
    cases b <;> simp [YCPValueRep.valuetype] at hb
    cases c <;> simp [YCPValueRep.valuetype] at hc
    exact ⟨_, _, _, rfl⟩
  | _ :: _ :: _ :: _ :: _ => simp [nlocaleShape] at h

/-- On a non-empty list NLOCALE returns without a fault and without calling a
collaborator, and what it returns is an Error exactly when the list is not
of shape (String, String, Integer). -/
theorem dispatch_nlocale_returns {σ : Type} (ext : Externals σ) (self : σ)
    (a : YCPValueRep) (rest : YCPList) :
    ∃ v, evaluateBuiltinBuiltin ext self .YCPB_NLOCALE (a :: rest) = Run.done self v ∧
      (isErrorValue v = true ↔ nlocaleShape (a :: rest) = false) := by
  cases hshape : nlocaleShape (a :: rest) with
  | false =>
    refine ⟨YCPError "Wrong args for nlocale", ?_, by simp [YCPError, isErrorValue]⟩
    simp [evaluateBuiltinBuiltin, size_cons, nlocaleArgsOk_eq, hshape, Run.withAccess]
  | true =>
    obtain ⟨s1, s2, n, hargs⟩ := nlocaleShape_true _ hshape
    rw [hargs]
    exact ⟨YCPLocale s1 s2 n, rfl, by simp [YCPLocale, isErrorValue]⟩

/-- A relational opcode on a one-element list reads position 1, which is past
the end. -/
theorem relational_singleton_faults {σ : Type} (ext : Externals σ) (self : σ)
    (code : builtin_t) (a : YCPValueRep) (hrel : relational code = true) :
    evaluateBuiltinBuiltin ext self code [a] = Run.fault self (.outOfRange 1) := by
  cases code <;> simp [relational] at hrel <;> rfl

/-- A relational opcode on a list of at least two elements returns a Boolean
and calls no collaborator. -/
theorem relational_pair_boolean {σ : Type} (ext : Externals σ) (self : σ)
    (code : builtin_t) (a b : YCPValueRep) (rest : YCPList) (hrel : relational code = true) :
    ∃ r : Bool, evaluateBuiltinBuiltin ext self code (a :: b :: rest)
      = Run.done self (YCPBoolean r) := by
  cases code <;> simp [relational] at hrel <;> exact ⟨_, rfl⟩

/-- Under collaborators that never return an Error, the inner switch on the
kind of the first argument never returns one either. -/
theorem dispatchByValuetype_not_error {σ : Type} (ext : Externals σ)
    (hext : ext.neverError) (self : σ) (code : builtin_t) (a : YCPValueRep) (rest : YCPList) :
    (dispatchByValuetype ext self code (a :: rest)).returnsError = false := by
  obtain ⟨hi, hf, hs, hp, hl, hm, ht, hb, _⟩ := hext
  cases a <;>
    simp only [dispatchByValuetype, value_zero_cons, Run.withAccess, YCPValueRep.valuetype,
      YCPValueRep.asBoolean, YCPValueRep.asByteblockSize] <;>
    (try split) <;>
    simp only [Run.returnsError, Run.call, Run.done] <;>
    first
      | rfl
      | exact hi _ _ _
      | exact hf _ _ _
      | exact hs _ _ _
      | exact hp _ _ _
      | exact hl _ _ _
      | exact hm _ _ _
      | exact ht _ _ _
      | exact hb _ _ _

/-- The sample collaborators never return an Error. -/
theorem sampleExt_neverError : sampleExt.neverError := by
  unfold Externals.neverError
  and_intros <;> intros <;> rfl

/-- C16, at the failing input: EQ on the one-element list [Integer 3] passes
the size() < 1 guard and then reads position 1 of a list of size 1. -/
theorem dispatch_eq_singleton_reads_past_end :
    ¬ (YCPList.size [.integer 3] < 1) ∧ ¬ (1 < YCPList.size [.integer 3]) ∧
    YCPList.value [.integer 3] 1 = .error (.outOfRange 1) ∧
    evaluateBuiltinBuiltin sampleExt 0 .YCPB_EQ [.integer 3]
      = Run.fault 0 (.outOfRange 1) := by
  refine ⟨by decide, by decide, rfl, rfl⟩

/-- C17: a relational opcode (EQ, NEQ, LT, GT, LE, GE) on an argument list of
at least two elements returns a Boolean value, whatever the kinds of the
operands, without calling a collaborator; and two sets of collaborators that
agree on equal and compare give the same run, whatever their per-type
evaluators and sort routines are. -/
theorem dispatch_relational_boolean {σ : Type} (ext ext2 : Externals σ) (self : σ)
    (code : builtin_t) (a b : YCPValueRep) (rest : YCPList)
    (hrel : relational code = true)
    (hequal : ext2.equal = ext.equal) (hcompare : ext2.compare = ext.compare) :
    (∃ r : Bool, evaluateBuiltinBuiltin ext self code (a :: b :: rest)
      = Run.done self (some (.boolean r))) ∧
    evaluateBuiltinBuiltin ext2 self code (a :: b :: rest)
      = evaluateBuiltinBuiltin ext self code (a :: b :: rest) := by
  constructor
  · exact relational_pair_boolean ext self code a b rest hrel
  · cases code <;> simp [relational] at hrel <;>
      simp [evaluateBuiltinBuiltin, size_cons, value_zero_cons, value_one_cons,
        Run.withAccess, hequal, hcompare]

/-- C17, evaluated: LE on an Error value and a Void value gives the same
Boolean under the sample collaborators and under collaborators whose
evaluators and sort routine all answer with an Error. -/
theorem dispatch_relational_boolean_witness :
    relational .YCPB_SE = true ∧ sampleExtFailing.equal = sampleExt.equal ∧
    sampleExtFailing.compare = sampleExt.compare ∧
    (∃ r : Bool, evaluateBuiltinBuiltin sampleExt 0 .YCPB_SE [.error "x", .void, .other 3]
      = Run.done 0 (some (.boolean r))) ∧
    evaluateBuiltinBuiltin sampleExtFailing 0 .YCPB_SE [.error "x", .void, .other 3]
      = evaluateBuiltinBuiltin sampleExt 0 .YCPB_SE [.error "x", .void, .other 3] :=
  ⟨rfl, rfl, rfl,
    dispatch_relational_boolean sampleExt sampleExtFailing 0 .YCPB_SE (.error "x") .void
      [.other 3] rfl rfl rfl⟩

/-- C18: when none of the eight per-type evaluators and the sort routine ever
returns an Error, the dispatcher returns an Error value if and only if the
opcode is NLOCALE, the argument list is non-empty and the argument list is
not exactly (String, String, Integer). -/
theorem dispatch_error_iff_nlocale_misuse {σ : Type} (ext : Externals σ)
    (hext : ext.neverError) (self : σ) (code : builtin_t) (args : YCPList) :
    (evaluateBuiltinBuiltin ext self code args).returnsError = true ↔
      (code = .YCPB_NLOCALE ∧ args ≠ [] ∧ nlocaleShape args = false) := by
  cases args with
  | nil => simp [evaluateBuiltinBuiltin, YCPList.size, Run.returnsError, Run.done, isErrorValue,
      YCPNull]
  | cons a rest =>
    by_cases hn : code = .YCPB_NLOCALE
    · subst hn
      obtain ⟨v, hv, hiff⟩ := dispatch_nlocale_returns ext self a rest
      simp [hv, Run.returnsError, Run.done, hiff]
    · have hfalse : (evaluateBuiltinBuiltin ext self code (a :: rest)).returnsError = false := by
        by_cases hrel : relational code = true
        · cases rest with
          | nil =>
            rw [relational_singleton_faults ext self code a hrel]
            rfl
          | cons b rest2 =>
            obtain ⟨r, hr⟩ := relational_pair_boolean ext self code a b rest2 hrel
            rw [hr]
            rfl
        · by_cases hgen : typeGeneric code = true
          · have hcases : code = .YCPB_FOREACH ∨ code = .YCPB_SORT := by
              cases code <;> simp [relational, typeGeneric] at hrel hgen hn ⊢
            rcases hcases with hc | hc
            · subst hc
              rw [dispatch_foreach_eq]
              split
              · simpa [Run.returnsError, Run.call] using hext.2.2.2.2.2.1 _ _ _
              · split
                · simpa [Run.returnsError, Run.call] using hext.2.2.2.2.1 _ _ _
                · rfl
            · subst hc
              simpa [evaluateBuiltinBuiltin, size_cons, Run.returnsError, Run.call]
                using hext.2.2.2.2.2.2.2.2 _ _
          · rw [dispatch_default ext self code a rest (by simpa using hgen)]
            exact dispatchByValuetype_not_error ext hext self code a rest
      simp [hfalse, hn]

/-- C18, evaluated on the sample collaborators, which never return an Error:
NLOCALE on a one-element list returns an Error, LOOKUP on a Void does not. -/
theorem dispatch_error_iff_nlocale_misuse_witness :
    sampleExt.neverError ∧
    ((evaluateBuiltinBuiltin sampleExt 0 .YCPB_NLOCALE [.integer 1]).returnsError = true ↔
      (builtin_t.YCPB_NLOCALE = .YCPB_NLOCALE ∧ [YCPValueRep.integer 1] ≠ [] ∧
        nlocaleShape [.integer 1] = false)) ∧
    ((evaluateBuiltinBuiltin sampleExt 0 .YCPB_LOOKUP [.void]).returnsError = true ↔
      (builtin_t.YCPB_LOOKUP = .YCPB_NLOCALE ∧ [YCPValueRep.void] ≠ [] ∧
        nlocaleShape [.void] = false)) :=
  ⟨sampleExt_neverError,
   dispatch_error_iff_nlocale_misuse sampleExt sampleExt_neverError 0 .YCPB_NLOCALE
     [.integer 1],
   dispatch_error_iff_nlocale_misuse sampleExt sampleExt_neverError 0 .YCPB_LOOKUP [.void]⟩

end YCP
